import Mathlib

/-!
Shallow embedding of the Servimed task-orchestration engine
(`api/main.py`, `tasks/scraping_tasks.py`, `tasks/order_tasks.py`,
`servimed/models/auth.py`).

External HTTP traffic is modelled by environment records: each field holds
the outcome of one outbound request, either `Except.error msg` (the Python
`requests` call raised, `msg = str(e)`) or `Except.ok` with the status code
and parsed body.  All functions are translated statement-by-statement from
the Python source; Python truthiness tests (`if not x`) are mirrored
explicitly.
-/

namespace Servimed

/-- Equality of request outcomes is decidable (needed to evaluate the
pipelines on concrete environments). -/
instance instDecEqExcept {ε α : Type} [DecidableEq ε] [DecidableEq α] :
    DecidableEq (Except ε α) := fun
  | .error a, .error b =>
    if h : a = b then .isTrue (by rw [h])
    else .isFalse (by intro he; cases he; exact h rfl)
  | .error _, .ok _ => .isFalse (by intro h; cases h)
  | .ok _, .error _ => .isFalse (by intro h; cases h)
  | .ok a, .ok b =>
    if h : a = b then .isTrue (by rw [h])
    else .isFalse (by intro he; cases he; exact h rfl)

/-- An extracted product record. The pipeline treats products opaquely
(it only counts them and forwards them), so the record's JSON content is
modelled as an opaque string. -/
abbrev Product := String

/-- Python truthiness of an `Optional[str]`: `None` and `""` are falsy. -/
def pyTruthyOptStr : Option String → Bool
  | none => false
  | some s => s ≠ ""

/-! ## Scraping helpers (`tasks/scraping_tasks.py`) -/

/-- HTTP response to the signup POST (`_create_user_signup`). -/
structure SignupResp where
  status_code : Nat
  text : String
deriving DecidableEq, Repr

/-- HTTP response to the OAuth2 token POST (`_authenticate_oauth2`):
status code and the `access_token` field of the JSON body (absent key
modelled as `none`). -/
structure AuthResp where
  status_code : Nat
  access_token : Option String
deriving DecidableEq, Repr

/-- HTTP response to the products GET (`_extract_products`): status code
and the parsed JSON body; `none` models a body that is not a list. -/
structure ProductsResp where
  status_code : Nat
  body : Option (List Product)
deriving DecidableEq, Repr

/-- HTTP response to the callback POST (`_send_to_callback`): status code
and response text (empty text models `response.content` being empty). -/
structure CallbackHttpResp where
  status_code : Nat
  text : String
deriving DecidableEq, Repr

/-- `str.__contains__`: substring test, via `splitOn` (the pattern occurs
iff splitting on it produces more than one piece). -/
def strContains (s pat : String) : Bool := (s.splitOn pat).length > 1

/-- `_create_user_signup`: 200/201 → success; 400 with
"Usuário já registrado" in the text → success; anything else, or a raised
exception, → `false`. -/
def createUserSignup (resp : Except String SignupResp) : Bool :=
  match resp with
  | .error _ => false
  | .ok r =>
    if r.status_code = 200 ∨ r.status_code = 201 then true
    else if r.status_code = 400 ∧ strContains r.text "Usuário já registrado" then true
    else false

/-- `_authenticate_oauth2`: on status 200 return the `access_token` field
when present and truthy, else `None`; non-200 or a raised exception →
`None`. -/
def authenticateOauth2 (resp : Except String AuthResp) : Option String :=
  match resp with
  | .error _ => none
  | .ok r =>
    if r.status_code = 200 then
      match r.access_token with
      | some tok => if tok ≠ "" then some tok else none
      | none => none
    else none

/-- `_extract_products`: on status 200 with a JSON list body return the
list; non-list body, non-200 status, or a raised exception → `[]`. -/
def extractProducts (resp : Except String ProductsResp) : List Product :=
  match resp with
  | .error _ => []
  | .ok r =>
    if r.status_code = 200 then
      match r.body with
      | some products => products
      | none => []
    else []

/-- The dict returned by `_send_to_callback`: `{"status": "success", ...}`,
`{"status": "warning", ...}` or `{"status": "error", "error": str(e)}`. -/
inductive CallbackResponse
  | success (status_code : Nat) (response : Option String)
  | warning (status_code : Nat) (response : String)
  | error (err : String)
deriving DecidableEq, Repr

/-- The `status` field of a `_send_to_callback` result dict. -/
def CallbackResponse.statusStr : CallbackResponse → String
  | .success _ _ => "success"
  | .warning _ _ => "warning"
  | .error _ => "error"

/-- `_send_to_callback`: 200/201 → success dict (with the parsed body when
the response has content); other status → warning dict with the response
text; a raised exception → error dict. It never raises. -/
def sendToCallback (resp : Except String CallbackHttpResp) : CallbackResponse :=
  match resp with
  | .error e => .error e
  | .ok r =>
    if r.status_code = 200 ∨ r.status_code = 201 then
      .success r.status_code (if r.text ≠ "" then some r.text else none)
    else
      .warning r.status_code r.text

/-! ## `execute_scraping` -/

/-- Outcomes of the four outbound HTTP requests made during one scraping
run, plus the measured elapsed time (`time.time() - start_time`, in
seconds). -/
structure ScrapingEnv where
  signupResp : Except String SignupResp
  authResp : Except String AuthResp
  productsResp : Except String ProductsResp
  callbackResp : Except String CallbackHttpResp
  elapsed : Rat
deriving DecidableEq, Repr

/-- The `ScrapingResult` pydantic model returned (as a dict) by a
successful `execute_scraping` run. -/
structure ScrapingResult where
  task_id : String
  total_products : Nat
  products : List Product
  extraction_time : Rat
  callback_sent : Bool
  callback_response : Option CallbackResponse
deriving DecidableEq, Repr

/-- Observable effects of one `execute_scraping` run: which external calls
were issued and which Celery progress updates (`self.update_state` with
state PROGRESS) were emitted. `checkpoint` carries the reported progress
fraction in percent and the message. -/
inductive Ev
  | signupCall
  | authCall
  | extractCall
  | callbackCall
  | checkpoint (percent : Nat) (message : String)
deriving DecidableEq, Repr

/-- Whether an event is a progress checkpoint update. -/
def Ev.isCheckpoint : Ev → Bool
  | .checkpoint _ _ => true
  | _ => false

/-- `execute_scraping` (Celery task body): signup (failure tolerated),
authenticate (falsy token → raise), extract (empty list → raise), send to
callback, then build the result with `callback_sent=True` hard-coded.
The outer `except` re-raises any error as
`ValueError("Erro na tarefa de scraping: " + str(e))`, so the task's Celery
outcome is `Except.error` with that message.  The second component is the
trace of emitted effects (the source issues no `update_state` call, so no
`checkpoint` event is ever constructed). -/
def execute_scraping (env : ScrapingEnv) (taskId : String) :
    Except String ScrapingResult × List Ev :=
  let signup_success := createUserSignup env.signupResp
  -- `if not signup_success:` only logs a warning and continues
  let _ := signup_success
  let auth_token := authenticateOauth2 env.authResp
  if ¬ pyTruthyOptStr auth_token then
    (.error "Erro na tarefa de scraping: Falha na autenticação OAuth2",
     [.signupCall, .authCall])
  else
    let products := extractProducts env.productsResp
    if products = [] then
      (.error "Erro na tarefa de scraping: Nenhum produto extraído",
       [.signupCall, .authCall, .extractCall])
    else
      let callback_response := sendToCallback env.callbackResp
      (.ok { task_id := taskId
             total_products := products.length
             products := products
             extraction_time := env.elapsed
             callback_sent := true
             callback_response := some callback_response },
       [.signupCall, .authCall, .extractCall, .callbackCall])

/-! ## Order models (`models/order.py`) and pipeline (`tasks/order_tasks.py`) -/

/-- `ProductItem`: one item of an order request.  Monetary amounts later
computed from `quantidade` are modelled in integer cents. -/
structure ProductItem where
  gtin : String
  codigo : String
  quantidade : Int
deriving DecidableEq, Repr

/-- `OrderResponse`: the confirmation payload `{codigo_confirmacao, status}`.
(`codigo_confirmacao` is a string; pydantic coerces the integer order id to
its decimal string.) -/
structure OrderResponse where
  codigo_confirmacao : String
  status : String
deriving DecidableEq, Repr

/-- One entry of `order_data["itens"]` / of a challenge-API order body. -/
structure OrderItemPayload where
  gtin : String
  codigo : String
  quantidade : Int
deriving DecidableEq, Repr

/-- The order record returned by the challenge API (`Order` model):
`{id, codigo_fornecedor, status, itens}`. -/
structure ChallengeOrder where
  id : Int
  codigo_fornecedor : Option String
  status : Option String
  itens : List OrderItemPayload
deriving DecidableEq, Repr

/-- Per-item record appended by `simulate_product_purchase`; prices are
the mocked `10.50` unit price, in cents. -/
structure PurchaseRecord where
  gtin : String
  codigo : String
  quantidade : Int
  status : String
  preco_unitario_cents : Int
  preco_total_cents : Int
deriving DecidableEq, Repr

/-- Aggregate result of `simulate_product_purchase`. -/
structure PurchaseResult where
  produtos_comprados : List PurchaseRecord
  total_produtos : Nat
  status : String
deriving DecidableEq, Repr

/-- `simulate_product_purchase`: every item is processed (no short-circuit);
each gets status "comprado" with unit price 10.50 and total
`10.50 * quantidade`; the aggregate status is "compra_simulada".  (The
function's own `except` branch is unreachable: the loop body only sleeps
and builds dicts.) -/
def simulate_product_purchase (produtos : List ProductItem) : PurchaseResult :=
  { produtos_comprados :=
      produtos.map fun p =>
        { gtin := p.gtin
          codigo := p.codigo
          quantidade := p.quantidade
          status := "comprado"
          preco_unitario_cents := 1050
          preco_total_cents := 1050 * p.quantidade }
    total_produtos := produtos.length
    status := "compra_simulada" }

/-- HTTP response of the challenge-API order POST: status code and the
parsed order body. -/
structure CreateOrderResp where
  status_code : Nat
  body : ChallengeOrder
deriving DecidableEq, Repr

/-- `itens` payload built from the request's product list (used both for
the POST body and for the synthetic fallback order). -/
def itensOf (produtos : List ProductItem) : List OrderItemPayload :=
  produtos.map fun p => { gtin := p.gtin, codigo := p.codigo, quantidade := p.quantidade }

/-- The synthetic local order substituted when the challenge-API create
call does not return 201 or raises: `{"id": 999, "codigo_fornecedor": None,
"status": "simulado", "itens": ...}`. -/
def syntheticOrder (produtos : List ProductItem) : ChallengeOrder :=
  { id := 999
    codigo_fornecedor := none
    status := some "simulado"
    itens := itensOf produtos }

/-- `create_challenge_order`: POST the items to the challenge API; on
status 201 return the parsed order, on any other status or a raised
exception return the synthetic local order. It never raises. -/
def create_challenge_order (resp : Except String CreateOrderResp)
    (produtos : List ProductItem) : ChallengeOrder :=
  match resp with
  | .error _ => syntheticOrder produtos
  | .ok r => if r.status_code = 201 then r.body else syntheticOrder produtos

/-- A bare HTTP response (status code and text) for the PATCH and callback
calls of the order pipeline. -/
structure HttpResp where
  status_code : Nat
  text : String
deriving DecidableEq, Repr

/-- `update_challenge_order`: PATCH the order; true iff status 200; any
other status or a raised exception → false. -/
def update_challenge_order (resp : Except String HttpResp) : Bool :=
  match resp with
  | .error _ => false
  | .ok r => r.status_code = 200

/-- `send_callback` (order pipeline): POST the confirmation; true iff
status ∈ {200, 201, 202}; otherwise, or on a raised exception, false. -/
def send_callback (resp : Except String HttpResp) : Bool :=
  match resp with
  | .error _ => false
  | .ok r => r.status_code = 200 ∨ r.status_code = 201 ∨ r.status_code = 202

/-- Outcomes of the external interactions of one `execute_order` run:
the sampled login result (`random.random() > 0.1` in
`simulate_servimed_login`) and the three HTTP outcomes, plus the wall-clock
value `time.time()` recorded in the result. -/
structure OrderEnv where
  loginDraw : Bool
  createResp : Except String CreateOrderResp
  updateResp : Except String HttpResp
  callbackResp : Except String HttpResp
  now : Rat
deriving DecidableEq, Repr

/-- `simulate_servimed_login`: returns the sampled outcome; its `except`
branch (→ false) is unreachable for the sleep/sample body. -/
def simulate_servimed_login (loginDraw : Bool) : Bool := loginDraw

/-- The `task_data` dict passed to `execute_order`; `dict.get` yields
`None` for missing keys, `[]` for `produtos`. (The API's `create_task`
never puts a `task_id` key in this dict, so `task_id` is `none` for tasks
submitted through the API.) -/
structure OrderTaskData where
  task_id : Option String
  usuario : Option String
  senha : Option String
  id_pedido : Option String
  produtos : List ProductItem
  callback_url : Option String
deriving DecidableEq, Repr

/-- The dict returned by `execute_order`: the success shape
`{task_id, id_pedido, status:"completed", challenge_order_id, confirmation,
callback_sent, processing_time, message}` or the failure shape
`{task_id, id_pedido, status:"failed", error, processing_time, message}`;
keys absent from a shape are `none`. -/
structure OrderResult where
  task_id : Option String
  id_pedido : Option String
  status : String
  challenge_order_id : Option Int
  confirmation : Option OrderResponse
  callback_sent : Option Bool
  error : Option String
  processing_time : Rat
  message : String
deriving DecidableEq, Repr

/-- The failure dict built by `execute_order`'s `except` handler for the
caught exception message `e`. -/
def orderFailureResult (d : OrderTaskData) (now : Rat) (e : String) : OrderResult :=
  { task_id := d.task_id
    id_pedido := d.id_pedido
    status := "failed"
    challenge_order_id := none
    confirmation := none
    callback_sent := none
    error := some e
    processing_time := now
    message := "Falha no processamento: " ++ e }

/-- `execute_order`: validate required fields (Python truthiness of
`all([usuario, senha, id_pedido, produtos, callback_url])`), simulated
login, simulated purchase, challenge-API create (with synthetic fallback),
best-effort PATCH and callback, then the success dict.  Every raised
exception — including the two `raise` statements for validation and login —
is caught by the function's own `except` handler, which RETURNS the failure
dict, so `execute_order` always returns normally. -/
def execute_order (env : OrderEnv) (d : OrderTaskData) : OrderResult :=
  if ¬ (pyTruthyOptStr d.usuario ∧ pyTruthyOptStr d.senha ∧
        pyTruthyOptStr d.id_pedido ∧ d.produtos ≠ [] ∧
        pyTruthyOptStr d.callback_url) then
    orderFailureResult d env.now "Dados obrigatórios não fornecidos"
  else if ¬ simulate_servimed_login env.loginDraw then
    orderFailureResult d env.now "Falha no login do Servimed"
  else
    let order_result := simulate_product_purchase d.produtos
    let _ := order_result  -- passed to the PATCH helper, which ignores it
    let challenge_order := create_challenge_order env.createResp d.produtos
    let update_result := update_challenge_order env.updateResp
    let _ := update_result  -- best-effort: result only logged
    let confirmation : OrderResponse :=
      { codigo_confirmacao := toString challenge_order.id
        status := "pedido_realizado" }
    let callback_success := send_callback env.callbackResp
    -- `if not callback_success:` only logs a warning
    { task_id := d.task_id
      id_pedido := d.id_pedido
      status := "completed"
      challenge_order_id := some challenge_order.id
      confirmation := some confirmation
      callback_sent := some callback_success
      error := none
      processing_time := env.now
      message := "Pedido processado com sucesso" }

/-! ## API layer (`api/main.py`) -/

/-- The parsed body of `POST /scraping`
(`Union[ScrapingTaskRequest, OrderRequest]`): the kind-specific attributes
`produtos` and `id_pedido` are present (`some`) exactly when the request
was parsed as an `OrderRequest`.  There is no `kind`/discriminant field in
either request model. -/
structure IncomingRequest where
  usuario : String
  senha : String
  callback_url : String
  produtos : Option (List ProductItem)
  id_pedido : Option String
deriving DecidableEq, Repr

/-- The `task_data` dict sent to `execute_scraping.delay` for a scraping
submission. -/
structure ScrapingTaskData where
  usuario : String
  senha : String
  callback_url : String
deriving DecidableEq, Repr

/-- A successful dispatch of a task to Celery: the payload handed to a
`.delay` call.  The `order` constructor is the dispatch `create_task`
ATTEMPTS in its order branch; the source can never produce it (see
`create_task`). -/
inductive Dispatched
  | order (data : OrderTaskData)
  | scraping (data : ScrapingTaskData)
deriving DecidableEq, Repr

/-- Outcome of an HTTP endpoint: normal JSON response or an
`HTTPException` with a status code and detail. -/
inductive HttpOutcome (α : Type)
  | ok (a : α)
  | httpError (code : Nat) (detail : String)
deriving DecidableEq, Repr

/-- `is_order_task = hasattr(request, "produtos") and
hasattr(request, "id_pedido")` — attribute presence, not truthiness. -/
def is_order_task (r : IncomingRequest) : Bool :=
  r.produtos.isSome && r.id_pedido.isSome

/-- `str(e)` of the `AttributeError` raised by `execute_order.delay`:
`execute_order` is a plain function — `order_tasks.py` imports no Celery
app and puts no `@celery_app.task` decorator on it (contrast
`execute_scraping`) — so it has no `.delay` attribute.  (The hex escape
below is the ASCII apostrophe.) -/
def delayAttributeError : String :=
  "\x27function\x27 object has no attribute \x27delay\x27"

/-- The `POST /scraping` handler `create_task`: classify by attribute
presence.  In the order branch the code rebuilds the `OrderRequest`,
builds the order `task_data` dict (no `task_id` key) and calls
`execute_order.delay(task_data)` — which raises `AttributeError`
(see `delayAttributeError`); the handler's `except Exception` converts it
to HTTP 500 with detail `"Erro ao criar tarefa: " + str(e)`, so the
`OrderStatus` response built after the call is dead code and an order
dispatch never succeeds.  In the scraping branch `execute_scraping.delay`
succeeds and the scraping task is dispatched. -/
def create_task (r : IncomingRequest) : HttpOutcome Dispatched :=
  if is_order_task r then
    .httpError 500 ("Erro ao criar tarefa: " ++ delayAttributeError)
  else
    .ok (.scraping { usuario := r.usuario, senha := r.senha,
                     callback_url := r.callback_url })

/-! ## Celery result states and the status projector -/

/-- A value held by the Celery result backend for a finished task: the
return value of one of the repository's task functions. -/
inductive TaskValue
  | scrapingVal (r : ScrapingResult)
  | orderVal (r : OrderResult)
  | strVal (s : String)
deriving DecidableEq, Repr

/-- The meta dict attached to a PROGRESS state via `update_state`;
`task_result.info` may also be `None` (handled by `or {}` in the reader),
and either key may be absent. -/
structure ProgressMeta where
  progress : Option Rat
  message : Option String
deriving DecidableEq, Repr

/-- `AsyncResult.state` together with the associated info/result:
PENDING, PROGRESS (with meta), SUCCESS (with the task's return value,
which in Python could in general be `None`), FAILURE (with `str` of the
raised exception), or any other state string. -/
inductive CeleryState
  | pending
  | progress (meta : Option ProgressMeta)
  | success (result : Option TaskValue)
  | failure (info : String)
  | other (state : String)
deriving DecidableEq, Repr

/-- The `ScrapingTaskStatus` response of `GET /scraping/{task_id}`:
`started_at` and `completed_at` are `Option` timestamps (the handler
always sets both to `None`). -/
structure StatusView where
  task_id : String
  status : String
  progress : Rat
  message : String
  started_at : Option Rat
  completed_at : Option Rat
  error : Option String
  result : Option TaskValue
deriving DecidableEq, Repr

/-- Status projection of `get_task_status`: map the Celery state to the
external status/progress/message, build the response with
`started_at=None, completed_at=None, error=None, result=None`, then copy
`task_result.result` into `result` iff completed and `str(task_result.info)`
into `error` iff failed. -/
def get_task_status_view (taskId : String) (s : CeleryState) : StatusView :=
  let base : String → Rat → String → StatusView := fun status progress message =>
    { task_id := taskId
      status := status
      progress := progress
      message := message
      started_at := none
      completed_at := none
      error := none
      result := none }
  match s with
  | .pending => base "pending" 0 "Tarefa aguardando processamento"
  | .progress meta =>
    -- `meta = task_result.info or {}`; missing keys fall back to defaults
    let m := meta.getD { progress := none, message := none }
    base "processing" (m.progress.getD 0) (m.message.getD "Processando...")
  | .success result =>
    { base "completed" 1 "Tarefa concluída com sucesso" with result := result }
  | .failure info =>
    { base "failed" 0 ("Tarefa falhou: " ++ info) with error := some info }
  | .other _ => base "unknown" 0 "Status desconhecido"

/-- The Celery result backend as seen by the API: a finite map from task
id to recorded state.  `celery_app.AsyncResult(task_id)` constructs a
result handle for ANY id — it never returns `None` — and the backend
reports state PENDING for an id it has no record of. -/
def asyncResult (store : List (String × CeleryState)) (taskId : String) :
    Option CeleryState :=
  some ((store.lookup taskId).getD .pending)

/-- The `GET /scraping/{task_id}` handler: fetch the `AsyncResult`, raise
404 if it is `None` (which never happens — see `asyncResult`), otherwise
project the state. -/
def get_task_status (store : List (String × CeleryState)) (taskId : String) :
    HttpOutcome StatusView :=
  match asyncResult store taskId with
  | none => .httpError 404 "Tarefa não encontrada"
  | some st => .ok (get_task_status_view taskId st)

/-- The Celery terminal state produced by running `execute_scraping`: a
returned dict becomes SUCCESS with that value; the re-raised `ValueError`
becomes FAILURE with its message. -/
def celeryOfScraping (env : ScrapingEnv) (taskId : String) : CeleryState :=
  match (execute_scraping env taskId).1 with
  | .ok r => .success (some (.scrapingVal r))
  | .error e => .failure e

/-- The Celery SUCCESS record that `execute_order` WOULD produce if it
ran as a registered Celery task (it always returns a dict: its `except`
handler returns the failure dict instead of re-raising).  The source
system never records such a state — `execute_order` carries no
`@celery_app.task` decorator and its only dispatch site raises
`AttributeError` before anything is enqueued (see `create_task`) — so
these states are hypothetical; they are kept below only to make
`ReachableState` a superset of the genuinely reachable states. -/
def celeryOfOrder (env : OrderEnv) (d : OrderTaskData) : CeleryState :=
  .success (some (.orderVal (execute_order env d)))

/-- A superset of the Celery states that can occur for tasks of this
system: the initial PENDING, a PROGRESS state with some meta, a terminal
state of one of the task functions (`execute_scraping`, `test_task`,
and — hypothetically, see `celeryOfOrder` — `execute_order`, whose
dispatch in fact always fails), or an unrecognised state string.  An
invariant proven over this superset holds a fortiori over the states the
deployed system records. -/
def ReachableState (s : CeleryState) : Prop :=
  s = .pending
  ∨ (∃ meta, s = .progress meta)
  ∨ (∃ env taskId, s = celeryOfScraping env taskId)
  ∨ (∃ env d, s = celeryOfOrder env d)
  ∨ s = .success (some (.strVal "Tarefa de teste executada com sucesso!"))
  ∨ (∃ st, s = .other st)

/-! ## `AuthToken` (`servimed/models/auth.py`) -/

/-- The OAuth2 `AuthToken` pydantic model: token type, access token, and
`expires_in`, the expiry duration in seconds. -/
structure AuthToken where
  token_type : String
  access_token : String
  expires_in : Int
deriving DecidableEq, Repr

/-- The `validate_expires_in` validator: rejects a non-positive
`expires_in`. -/
def validate_expires_in (v : Int) : Except String Int :=
  if v ≤ 0 then .error "Tempo de expiração deve ser positivo" else .ok v

/-- `AuthToken.is_expired`: `current_timestamp >= self.expires_in` —
the duration field is compared directly against the given timestamp. -/
def AuthToken.is_expired (tok : AuthToken) (current_timestamp : Int) : Bool :=
  current_timestamp ≥ tok.expires_in

/-! ## Theorems -/

/-- A successful association-list lookup returns a value stored in the
list. -/
theorem lookup_value_mem {store : List (String × CeleryState)} {k : String}
    {s : CeleryState} (h : store.lookup k = some s) :
    ∃ p, p ∈ store ∧ p.2 = s := by
  induction store with
  | nil => simp [List.lookup] at h
  | cons hd tl ih =>
    obtain ⟨k2, v2⟩ := hd
    rw [List.lookup] at h
    split at h
    · exact ⟨(k2, v2), List.mem_cons_self _ _, Option.some.inj h⟩
    · obtain ⟨p, hp, hps⟩ := ih h
      exact ⟨p, List.mem_cons_of_mem _ hp, hps⟩

/-- The invariant of C1, for the view of a single reachable Celery
state. -/
theorem view_invariant_of_reachable (taskId : String) (s : CeleryState)
    (h : ReachableState s) :
    ((get_task_status_view taskId s).status = "failed" →
        (get_task_status_view taskId s).error ≠ none ∧
        (get_task_status_view taskId s).result = none) ∧
    ((get_task_status_view taskId s).status = "completed" →
        (get_task_status_view taskId s).result ≠ none ∧
        (get_task_status_view taskId s).error = none) ∧
    ((get_task_status_view taskId s).status ≠ "failed" ∧
        (get_task_status_view taskId s).status ≠ "completed" →
        (get_task_status_view taskId s).error = none ∧
        (get_task_status_view taskId s).result = none) := by
  rcases h with h | ⟨meta, h⟩ | ⟨env, tid, h⟩ | ⟨env, d, h⟩ | h | ⟨st, h⟩ <;> subst h
  · simp [get_task_status_view]
  · simp [get_task_status_view]
  · rw [celeryOfScraping]
    rcases (execute_scraping env tid).1 with e | r <;> simp [get_task_status_view]
  · simp [celeryOfOrder, get_task_status_view]
  · simp [get_task_status_view]
  · simp [get_task_status_view]

/-- C1: every task record observable through `GET /scraping/{task_id}`
(over a result store holding only states this system's tasks produce)
satisfies: status "failed" implies a non-null error and a null result;
status "completed" implies a non-null result and a null error; any other
status has both null. -/
theorem C1_status_error_result_invariant
    (store : List (String × CeleryState)) (taskId : String)
    (hstore : ∀ p ∈ store, ReachableState p.2)
    (v : StatusView) (hv : get_task_status store taskId = .ok v) :
    (v.status = "failed" → v.error ≠ none ∧ v.result = none) ∧
    (v.status = "completed" → v.result ≠ none ∧ v.error = none) ∧
    (v.status ≠ "failed" ∧ v.status ≠ "completed" →
        v.error = none ∧ v.result = none) := by
  have hreach : ReachableState ((store.lookup taskId).getD .pending) := by
    cases hl : store.lookup taskId with
    | none => exact Or.inl rfl
    | some s =>
      obtain ⟨p, hp, hps⟩ := lookup_value_mem hl
      simpa [hps] using hstore p hp
  have hv2 : v = get_task_status_view taskId ((store.lookup taskId).getD .pending) := by
    rw [get_task_status, asyncResult] at hv
    injection hv with h2
    exact h2.symm
  rw [hv2]
  exact view_invariant_of_reachable taskId _ hreach

/-! ### Concrete environments used as evaluation inputs -/

/-- A scraping environment in which the OAuth2 token request raises. -/
def envAuthFail : ScrapingEnv :=
  { signupResp := .ok { status_code := 201, text := "" }
    authResp := .error "Connection timeout"
    productsResp := .ok { status_code := 200, body := some ["prod1"] }
    callbackResp := .ok { status_code := 200, text := "ack" }
    elapsed := 1 }

/-- A scraping environment in which authentication and extraction succeed
but the callback POST raises. -/
def envCallbackFail : ScrapingEnv :=
  { signupResp := .ok { status_code := 201, text := "" }
    authResp := .ok { status_code := 200, access_token := some "tok-abc-123" }
    productsResp := .ok { status_code := 200, body := some ["prod1", "prod2"] }
    callbackResp := .error "Connection refused"
    elapsed := 2 }

/-- A scraping environment in which every external call succeeds. -/
def envScrapeOk : ScrapingEnv :=
  { signupResp := .ok { status_code := 200, text := "" }
    authResp := .ok { status_code := 200, access_token := some "tok-xyz-999" }
    productsResp := .ok { status_code := 200, body := some ["prod1", "prod2"] }
    callbackResp := .ok { status_code := 200, text := "ack" }
    elapsed := 3 }

/-- A fully-populated order `task_data` dict. -/
def orderDataOk : OrderTaskData :=
  { task_id := none
    usuario := some "fornecedor_user"
    senha := some "fornecedor_pass"
    id_pedido := some "1234"
    produtos := [{ gtin := "7899095203136", codigo := "446231", quantidade := 1 }]
    callback_url := some "https://desafio.cotefacil.net" }

/-- An order environment in which login succeeds but the challenge-API
create call returns HTTP 500. -/
def envOrderCreateFail : OrderEnv :=
  { loginDraw := true
    createResp := .ok { status_code := 500
                        body := { id := 64, codigo_fornecedor := none,
                                  status := none, itens := [] } }
    updateResp := .ok { status_code := 200, text := "" }
    callbackResp := .ok { status_code := 201, text := "" }
    now := 7 }

/-! ### C2 -/

/-- The callback delivery failed: the POST raised, or returned a non-2xx
status. -/
def callbackDeliveryFailed : Except String CallbackHttpResp → Prop
  | .error _ => True
  | .ok r => ¬ (r.status_code = 200 ∨ r.status_code = 201)

/-- C3 counterexample: with authentication and extraction succeeding and
the callback POST raising, the run completes — but the result records
`callback_sent = true` (hard-coded), not `false` as claimed; the failure
only shows in `callback_response.status = "error"`. -/
theorem C3_counterexample_callback_sent_true :
    ((execute_scraping envCallbackFail "t1").1.toOption.map
        fun r => (r.callback_sent, r.callback_response.map CallbackResponse.statusStr))
      = some (true, some "error") := rfl

/-- C3 (amended): when authentication and extraction succeed the task
completes regardless of the callback outcome — delivery failure never
fails the task — but the result's `callback_sent` field is `true`
(hard-coded), and a failed delivery is recorded in `callback_response`,
whose `status` is "error" (exception) or "warning" (non-2xx). -/
theorem C3_amended_callback_failure_nonfatal (env : ScrapingEnv) (taskId : String)
    (hauth : pyTruthyOptStr (authenticateOauth2 env.authResp) = true)
    (hprod : extractProducts env.productsResp ≠ []) :
    ∃ r, (execute_scraping env taskId).1 = .ok r ∧
      r.callback_sent = true ∧
      r.callback_response = some (sendToCallback env.callbackResp) ∧
      (callbackDeliveryFailed env.callbackResp →
        (sendToCallback env.callbackResp).statusStr = "error" ∨
        (sendToCallback env.callbackResp).statusStr = "warning") := by
  have hrun : (execute_scraping env taskId).1 =
      .ok { task_id := taskId
            total_products := (extractProducts env.productsResp).length
            products := extractProducts env.productsResp
            extraction_time := env.elapsed
            callback_sent := true
            callback_response := some (sendToCallback env.callbackResp) } := by
    rw [execute_scraping]
    simp [hauth, hprod]
  refine ⟨_, hrun, rfl, rfl, ?_⟩
  · intro hfail
    rcases hresp : env.callbackResp with e | r
    · left; simp [sendToCallback, hresp, CallbackResponse.statusStr]
    · right
      rw [hresp] at hfail
      simp only [callbackDeliveryFailed] at hfail
      simp [sendToCallback, hresp, hfail, CallbackResponse.statusStr]

/-- C3 amended, evaluated at the concrete callback-failure environment. -/
theorem C3_amended_witness :
    ∃ r, (execute_scraping envCallbackFail "t1").1 = .ok r ∧
      r.callback_sent = true ∧
      r.callback_response = some (sendToCallback envCallbackFail.callbackResp) ∧
      (callbackDeliveryFailed envCallbackFail.callbackResp →
        (sendToCallback envCallbackFail.callbackResp).statusStr = "error" ∨
        (sendToCallback envCallbackFail.callbackResp).statusStr = "warning") :=
  C3_amended_callback_failure_nonfatal envCallbackFail "t1" rfl (by decide)

/-- C1's invariant, evaluated over a concrete one-task store holding the
terminal state of an authentication-failure scraping run. -/
theorem C1_status_error_result_invariant_witness :
    ((get_task_status_view "t1" (celeryOfScraping envAuthFail "t1")).status = "failed" →
        (get_task_status_view "t1" (celeryOfScraping envAuthFail "t1")).error ≠ none ∧
        (get_task_status_view "t1" (celeryOfScraping envAuthFail "t1")).result = none) ∧
    ((get_task_status_view "t1" (celeryOfScraping envAuthFail "t1")).status = "completed" →
        (get_task_status_view "t1" (celeryOfScraping envAuthFail "t1")).result ≠ none ∧
        (get_task_status_view "t1" (celeryOfScraping envAuthFail "t1")).error = none) ∧
    ((get_task_status_view "t1" (celeryOfScraping envAuthFail "t1")).status ≠ "failed" ∧
        (get_task_status_view "t1" (celeryOfScraping envAuthFail "t1")).status ≠ "completed" →
        (get_task_status_view "t1" (celeryOfScraping envAuthFail "t1")).error = none ∧
        (get_task_status_view "t1" (celeryOfScraping envAuthFail "t1")).result = none) :=
  C1_status_error_result_invariant [("t1", celeryOfScraping envAuthFail "t1")] "t1"
    (by
      intro p hp
      rw [List.mem_singleton] at hp
      subst hp
      exact Or.inr (Or.inr (Or.inl ⟨envAuthFail, "t1", rfl⟩)))
    (get_task_status_view "t1" (celeryOfScraping envAuthFail "t1"))
    rfl

/-- A request carrying both `produtos` and `id_pedido` (the body the
repository's own `scripts/test_orders.py` submits). -/
def orderShapedRequest : IncomingRequest :=
  { usuario := "teste@servimed.com"
    senha := "senha123"
    callback_url := "https://httpbin.org/post"
    produtos := some [{ gtin := "7899095203136", codigo := "446231", quantidade := 2 },
                      { gtin := "7898636193493", codigo := "444212", quantidade := 1 }]
    id_pedido := some "PEDIDO_001" }

/-- A request without the order-specific attributes. -/
def scrapingShapedRequest : IncomingRequest :=
  { usuario := "teste@email.com"
    senha := "senha123"
    callback_url := "https://httpbin.org/post"
    produtos := none
    id_pedido := none }

/-! ### C4 -/

/-- C4: the only pipeline the system ever runs asynchronously is the
scraping one — `create_task` never succeeds in dispatching an order run,
its order branch failing synchronously before anything is enqueued — and
every error arising inside a scraping run is captured by the worker into
the task's FAILURE record, which the polling API projects as a Failed
outcome carrying the error message and a null result; no exception
reaches the submitting caller across the asynchronous boundary, so
polling is the sole channel for failure visibility. -/
theorem C4_no_async_error_escape :
    (∀ (r : IncomingRequest) (d : OrderTaskData),
        create_task r ≠ .ok (.order d)) ∧
    (∀ env taskId e, (execute_scraping env taskId).1 = .error e →
        (get_task_status_view taskId (celeryOfScraping env taskId)).status = "failed" ∧
        (get_task_status_view taskId (celeryOfScraping env taskId)).error = some e ∧
        (get_task_status_view taskId (celeryOfScraping env taskId)).result = none) := by
  constructor
  · intro r d h
    rw [create_task] at h
    split at h <;> simp at h
  · intro env taskId e he
    rw [celeryOfScraping, he]
    exact ⟨rfl, rfl, rfl⟩

/-- C4, evaluated at a concrete order-shaped submission and at the
concrete authentication-failure scraping run. -/
theorem C4_no_async_error_escape_witness :
    create_task orderShapedRequest ≠ .ok (.order orderDataOk) ∧
    ((get_task_status_view "t1" (celeryOfScraping envAuthFail "t1")).status = "failed" ∧
     (get_task_status_view "t1" (celeryOfScraping envAuthFail "t1")).error =
       some "Erro na tarefa de scraping: Falha na autenticação OAuth2" ∧
     (get_task_status_view "t1" (celeryOfScraping envAuthFail "t1")).result = none) :=
  ⟨C4_no_async_error_escape.1 orderShapedRequest orderDataOk,
   C4_no_async_error_escape.2 envAuthFail "t1"
     "Erro na tarefa de scraping: Falha na autenticação OAuth2" rfl⟩

/-! ### C5 -/

/-- C5 counterexample: a scraping run that passes authentication (all
external calls succeed, two products extracted) emits NO checkpoint
update at all — in particular none at ~30% or ~70%. -/
theorem C5_counterexample_no_checkpoints_on_successful_run :
    pyTruthyOptStr (authenticateOauth2 envScrapeOk.authResp) = true ∧
    (execute_scraping envScrapeOk "t1").1 =
      .ok { task_id := "t1"
            total_products := 2
            products := ["prod1", "prod2"]
            extraction_time := 3
            callback_sent := true
            callback_response := some (.success 200 (some "ack")) } ∧
    ((execute_scraping envScrapeOk "t1").2.filter Ev.isCheckpoint) = [] :=
  ⟨rfl, rfl, rfl⟩

/-- C5 (amended): no scraping run emits any progress checkpoint — the
task body never issues an `update_state` call, so the effect trace of
every run is free of checkpoint events and a poll before the terminal
state observes the PENDING projection (progress 0.0). -/
theorem C5_amended_no_progress_checkpoints (env : ScrapingEnv) (taskId : String) :
    ((execute_scraping env taskId).2.all fun e => !(Ev.isCheckpoint e)) = true := by
  rw [execute_scraping]
  split
  · rfl
  · dsimp only
    split
    · rfl
    · rfl

/-! ### C6 -/

/-- C6 counterexample: the status projection of a failed task forces
`progress` to 0.0 (here the last reported checkpoint meta said 1/2) and
leaves `completed_at` null, contradicting "progress left at last known
value" and "completed_at set". -/
theorem C6_counterexample_failure_projection :
    (get_task_status_view "t1"
        (.progress (some { progress := some (1/2 : Rat), message := some "halfway" }))).progress
      = (1/2 : Rat) ∧
    (get_task_status_view "t1" (.failure "boom")).progress = 0 ∧
    (get_task_status_view "t1" (.failure "boom")).completed_at = none :=
  ⟨rfl, rfl, rfl⟩

/-- C6 (amended): a Failed task record is projected with status "failed",
`progress` forced to 0.0 (any previously reported value is discarded),
`error` populated with a descriptive message derived from the exception,
and `completed_at` left null (the projection never sets timestamps). -/
theorem C6_amended_failed_view_fields (taskId info : String) :
    (get_task_status_view taskId (.failure info)).status = "failed" ∧
    (get_task_status_view taskId (.failure info)).progress = 0 ∧
    (get_task_status_view taskId (.failure info)).error = some info ∧
    (get_task_status_view taskId (.failure info)).message = "Tarefa falhou: " ++ info ∧
    (get_task_status_view taskId (.failure info)).completed_at = none :=
  ⟨rfl, rfl, rfl, rfl, rfl⟩

/-! ### C7 -/

/-- C7: when the OAuth2 credential exchange yields no (truthy) bearer
token, the scraping run stops immediately: the effect trace is exactly
signup followed by one authentication attempt (no retry, no extraction,
no callback), the task's Celery outcome is a FAILURE whose message is the
authentication error, and the projected record is "failed" with that error
and a null result. -/
theorem C7_auth_failure_hard_stop (env : ScrapingEnv) (taskId : String)
    (hauth : pyTruthyOptStr (authenticateOauth2 env.authResp) = false) :
    (execute_scraping env taskId).1 =
        .error "Erro na tarefa de scraping: Falha na autenticação OAuth2" ∧
    (execute_scraping env taskId).2 = [.signupCall, .authCall] ∧
    (get_task_status_view taskId (celeryOfScraping env taskId)).status = "failed" ∧
    (get_task_status_view taskId (celeryOfScraping env taskId)).error =
        some "Erro na tarefa de scraping: Falha na autenticação OAuth2" ∧
    (get_task_status_view taskId (celeryOfScraping env taskId)).result = none := by
  have hrun : execute_scraping env taskId =
      (.error "Erro na tarefa de scraping: Falha na autenticação OAuth2",
       [.signupCall, .authCall]) := by
    rw [execute_scraping]
    simp [hauth]
  refine ⟨by rw [hrun], by rw [hrun], ?_, ?_, ?_⟩ <;>
    rw [celeryOfScraping, hrun] <;> rfl

/-- C7, evaluated at the concrete environment whose token request raises
with "Connection timeout". -/
theorem C7_auth_failure_hard_stop_witness :
    (execute_scraping envAuthFail "t1").1 =
        .error "Erro na tarefa de scraping: Falha na autenticação OAuth2" ∧
    (execute_scraping envAuthFail "t1").2 = [.signupCall, .authCall] ∧
    (get_task_status_view "t1" (celeryOfScraping envAuthFail "t1")).status = "failed" ∧
    (get_task_status_view "t1" (celeryOfScraping envAuthFail "t1")).error =
        some "Erro na tarefa de scraping: Falha na autenticação OAuth2" ∧
    (get_task_status_view "t1" (celeryOfScraping envAuthFail "t1")).result = none :=
  C7_auth_failure_hard_stop envAuthFail "t1" rfl

/-! ### C8 -/

/-- C8 (evaluation of the divergence): a request carrying both the
order-item list and the order identifier IS classified as an order task
by structural inspection (no kind field is consulted — the request models
have none), but it is never dispatched as one: the dispatch attempt
crashes on `execute_order.delay` and the endpoint answers HTTP 500.  A
request without those attributes is dispatched as a Scraping task. -/
theorem C8_order_dispatch_always_http500 :
    is_order_task orderShapedRequest = true ∧
    create_task orderShapedRequest =
      .httpError 500 ("Erro ao criar tarefa: " ++ delayAttributeError) ∧
    is_order_task scrapingShapedRequest = false ∧
    create_task scrapingShapedRequest =
      .ok (.scraping { usuario := "teste@email.com", senha := "senha123",
                       callback_url := "https://httpbin.org/post" }) :=
  ⟨rfl, rfl, rfl, rfl⟩

/-! ### C9 -/

/-- The challenge-API order-create call did not succeed: the POST raised,
or returned a status other than 201 (which includes every non-success
HTTP outcome). -/
def createOrderFailed : Except String CreateOrderResp → Prop
  | .error _ => True
  | .ok r => r.status_code ≠ 201

/-- `createOrderFailed` is decidable on concrete outcomes. -/
instance instDecCreateOrderFailed : DecidablePred createOrderFailed := fun
  | .error _ => .isTrue trivial
  | .ok r => inferInstanceAs (Decidable (r.status_code ≠ 201))

/-- C9: in an order run with valid data and successful login, when the
challenge-API create call raises or returns a non-created status, the
pipeline substitutes the synthetic local order (id 999) and still
completes: the result has status "completed", `challenge_order_id = 999`,
a confirmation built from the synthetic id, and no error. -/
theorem C9_order_create_fallback (env : OrderEnv) (d : OrderTaskData)
    (husr : pyTruthyOptStr d.usuario = true)
    (hpw : pyTruthyOptStr d.senha = true)
    (hid : pyTruthyOptStr d.id_pedido = true)
    (hprod : d.produtos ≠ [])
    (hcb : pyTruthyOptStr d.callback_url = true)
    (hlogin : env.loginDraw = true)
    (hcreate : createOrderFailed env.createResp) :
    (execute_order env d).status = "completed" ∧
    (execute_order env d).challenge_order_id = some 999 ∧
    (execute_order env d).confirmation =
      some { codigo_confirmacao := "999", status := "pedido_realizado" } ∧
    (execute_order env d).error = none := by
  have horder : create_challenge_order env.createResp d.produtos =
      syntheticOrder d.produtos := by
    rcases hresp : env.createResp with e | resp
    · rfl
    · rw [hresp] at hcreate
      simp only [createOrderFailed] at hcreate
      simp [create_challenge_order, hcreate]
  have h999 : toString (999 : Int) = "999" := rfl
  rw [execute_order]
  simp only [husr, hpw, hid, hprod, hcb, hlogin, simulate_servimed_login, horder,
    syntheticOrder]
  simp [hprod, h999]

/-- C9, evaluated with valid order data, a successful login draw, and the
create call answering HTTP 500. -/
theorem C9_order_create_fallback_witness :
    (execute_order envOrderCreateFail orderDataOk).status = "completed" ∧
    (execute_order envOrderCreateFail orderDataOk).challenge_order_id = some 999 ∧
    (execute_order envOrderCreateFail orderDataOk).confirmation =
      some { codigo_confirmacao := "999", status := "pedido_realizado" } ∧
    (execute_order envOrderCreateFail orderDataOk).error = none :=
  C9_order_create_fallback envOrderCreateFail orderDataOk rfl rfl rfl
    (by decide) rfl rfl (by decide)

/-! ### C10 -/

/-- C10: `AuthToken.is_expired t` is true exactly when `t ≥ expires_in`;
since `expires_in` is the (validated, positive) expiry DURATION in seconds
and not an absolute deadline, every timestamp exceeding the duration —
e.g. any current epoch time — makes the token report expired, regardless
of when it was issued. -/
theorem C10_is_expired_compares_duration (tok : AuthToken) (t : Int) :
    (tok.is_expired t = true ↔ tok.expires_in ≤ t) ∧
    (validate_expires_in tok.expires_in = .ok tok.expires_in →
      tok.expires_in < t → tok.is_expired t = true) := by
  constructor
  · simp [AuthToken.is_expired, ge_iff_le]
  · intro _ hlt
    simp [AuthToken.is_expired, ge_iff_le]
    exact le_of_lt hlt

/-- A validated sample token with an 1800-second expiry duration. -/
def sampleToken : AuthToken :=
  { token_type := "Bearer", access_token := "abcdefghij-token", expires_in := 1800 }

/-- C10, evaluated at the sample token and a realistic 2025 epoch
timestamp: the token is reported expired. -/
theorem C10_is_expired_compares_duration_witness :
    validate_expires_in sampleToken.expires_in = .ok sampleToken.expires_in ∧
    (sampleToken.expires_in < 1760000000 ∧
      sampleToken.is_expired 1760000000 = true) :=
  ⟨by decide,
   by decide,
   (C10_is_expired_compares_duration sampleToken 1760000000).2 (by decide) (by decide)⟩

end Servimed
